import Mathlib

/-!
Verification of the AIM-EDU client-side scripts.

This file shallowly embeds the two source files:
  * `src/static/js/theme-toggle.js` — the theme persistence/application
    controller (`getSavedTheme`, `applyTheme`, `toggleTheme`, `initTheme`,
    `checkSystemPreference`, the anti-flash IIFE and the DOM-ready wiring);
  * `src/unnamed/part_000` (main script) — the alert auto-dismiss logic of
    `initAlerts` (`parseInt(alert.dataset.dismiss) || 5000` and the nested
    300 ms removal timeout).

The browser state visible to these scripts is modelled explicitly:
the `data-theme` attribute on the document element, the list of
`.theme-toggle` controls in document order, the `localStorage` entry under
the fixed key `aims-theme`, an availability flag for `localStorage.setItem`
(a write either succeeds or throws, as under quota/policy restrictions),
and the ambient `prefers-color-scheme: dark` media-query result.
JavaScript exceptions are modelled by a `threw` flag on each operation's
result: a throwing step keeps the side effects already performed and skips
every later step of the function, and the flag propagates to the caller.
-/

namespace ThemeToggle

/-- One element matching `.theme-toggle`: its `aria-pressed` attribute, its
`title` attribute (each `none` when the attribute is absent), and whether a
click listener has been attached to it. -/
structure Btn where
  ariaPressed : Option String
  title : Option String
  hasListener : Bool
deriving DecidableEq, Repr

/-- The browser state read and written by `theme-toggle.js`. -/
structure State where
  /-- `document.documentElement.getAttribute('data-theme')`; `none` when the
  attribute is absent. -/
  dataTheme : Option String
  /-- The elements matching `.theme-toggle`, in document order. -/
  buttons : List Btn
  /-- `localStorage.getItem('aims-theme')`; `none` when there is no entry. -/
  store : Option String
  /-- Whether `localStorage.setItem` succeeds; when `false` the write throws
  (storage denied or quota exceeded). -/
  storageOk : Bool
  /-- `window.matchMedia('(prefers-color-scheme: dark)').matches`. -/
  prefersDark : Bool
deriving DecidableEq, Repr

/-- Result of running a statement block: the state it leaves behind and
whether it threw (an exception propagating to the caller). -/
structure JsResult where
  state : State
  threw : Bool
deriving DecidableEq, Repr

/-- JavaScript `x || dflt` for `x` a string-or-null: the default is taken
when `x` is `null` or the empty string (both falsy). -/
def jsOr (x : Option String) (dflt : String) : String :=
  match x with
  | none => dflt
  | some s => if s = "" then dflt else s

/-- JavaScript truth of `!x` for `x` a string-or-null: `null` and `""` are
falsy. -/
def strFalsy (x : Option String) : Bool :=
  match x with
  | none => true
  | some s => s = ""

/-- `getSavedTheme`: `localStorage.getItem(THEME_KEY) || LIGHT_THEME`. -/
def getSavedTheme (s : State) : String :=
  jsOr s.store "light"

/-- The string a boolean becomes when passed to `setAttribute`. -/
def boolAttr (b : Bool) : String :=
  if b then "true" else "false"

/-- The `title` attribute `applyTheme` writes on the toggle button. -/
def btnTitle (theme : String) : String :=
  if theme = "dark" then "Switch to Light Mode" else "Switch to Dark Mode"

/-- The toggle-button update of `applyTheme`: `document.querySelector`
returns the FIRST `.theme-toggle` element (or none), and only that element
receives the new `aria-pressed` and `title` attributes. -/
def updateFirstBtn (theme : String) (bs : List Btn) : List Btn :=
  match bs with
  | [] => []
  | b :: rest =>
      { b with
          ariaPressed := some (boolAttr (theme = "dark")),
          title := some (btnTitle theme) } :: rest

/-- `applyTheme(theme)`: set the `data-theme` attribute, then
`localStorage.setItem(THEME_KEY, theme)` — which throws when storage is
unavailable, aborting the rest of the function with the attribute already
set — then update the first `.theme-toggle` element, if any. -/
def applyTheme (theme : String) (s : State) : JsResult :=
  let s1 : State := { s with dataTheme := some theme }
  if s1.storageOk then
    let s2 : State := { s1 with store := some theme }
    { state := { s2 with buttons := updateFirstBtn theme s2.buttons },
      threw := false }
  else
    { state := s1, threw := true }

/-- The opposite theme computed inside `toggleTheme`:
`currentTheme === DARK_THEME ? LIGHT_THEME : DARK_THEME`. -/
def nextTheme (currentTheme : String) : String :=
  if currentTheme = "dark" then "light" else "dark"

/-- `toggleTheme()`: read the current theme from the `data-theme` attribute
(falling back to `light`), flip it, and call `applyTheme`. -/
def toggleTheme (s : State) : JsResult :=
  applyTheme (nextTheme (jsOr s.dataTheme "light")) s

/-- Listener attachment of `initTheme`: `querySelectorAll('.theme-toggle')`
followed by `addEventListener` on each. -/
def attachAll (bs : List Btn) : List Btn :=
  bs.map (fun b => { b with hasListener := true })

/-- `initTheme()`: `applyTheme(getSavedTheme())`, then attach the click
listener to every `.theme-toggle` element.  If `applyTheme` throws, the
exception propagates and the listeners are never attached. -/
def initTheme (s : State) : JsResult :=
  let r := applyTheme (getSavedTheme s) s
  if r.threw then r
  else { state := { r.state with buttons := attachAll r.state.buttons },
         threw := false }

/-- `checkSystemPreference()`: when `localStorage.getItem(THEME_KEY)` is
falsy, return `dark` or `light` according to the media query; otherwise
return `getSavedTheme()`. -/
def checkSystemPreference (s : State) : String :=
  if strFalsy s.store then
    if s.prefersDark then "dark" else "light"
  else
    getSavedTheme s

/-- The anti-flash IIFE: compute `checkSystemPreference()` and write it to
the `data-theme` attribute.  Nothing else is touched. -/
def preFlash (s : State) : State :=
  { s with dataTheme := some (checkSystemPreference s) }

/-- A full page load with `document.readyState === 'loading'`: the
anti-flash IIFE runs synchronously at script evaluation, and `initTheme`
runs later on `DOMContentLoaded`. -/
def loadPage (s : State) : JsResult :=
  initTheme (preFlash s)

end ThemeToggle

namespace MainJs

/-- Whitespace characters stripped by JavaScript `parseInt` before reading
the number (the ASCII `StrWhiteSpaceChar`s). -/
def jsWhitespace (c : Char) : Bool :=
  c = ' ' || c = '\t' || c = '\n' || c = '\r' || c = '\x0b' || c = '\x0c'

/-- Value of a decimal digit character, if it is one. -/
def decDigit (c : Char) : Option Nat :=
  if '0' ≤ c ∧ c ≤ '9' then some (c.toNat - '0'.toNat) else none

/-- Value of a hexadecimal digit character, if it is one. -/
def hexDigit (c : Char) : Option Nat :=
  if '0' ≤ c ∧ c ≤ '9' then some (c.toNat - '0'.toNat)
  else if 'a' ≤ c ∧ c ≤ 'f' then some (c.toNat - 'a'.toNat + 10)
  else if 'A' ≤ c ∧ c ≤ 'F' then some (c.toNat - 'A'.toNat + 10)
  else none

/-- Read the longest prefix of digits (under `dig`) in base `base`;
`none` when there is no digit at all (JavaScript `NaN`). -/
def readDigits (dig : Char → Option Nat) (base : Nat) :
    List Char → Option Nat → Option Nat
  | [], acc => acc
  | c :: cs, acc =>
      match dig c with
      | some d => readDigits dig base cs (some (acc.getD 0 * base + d))
      | none => acc

/-- JavaScript `parseInt(s)` with no radix argument: skip leading
whitespace, an optional sign, recognise a `0x`/`0X` prefix as hexadecimal,
otherwise read decimal digits; `none` models `NaN`. -/
def jsParseInt (s : String) : Option Int :=
  let cs := s.toList.dropWhile (fun c => jsWhitespace c)
  let signAndRest : Int × List Char :=
    match cs with
    | '-' :: rest => (-1, rest)
    | '+' :: rest => (1, rest)
    | _ => (1, cs)
  let sign := signAndRest.1
  let body := signAndRest.2
  match body with
  | '0' :: x :: rest =>
      if x = 'x' ∨ x = 'X' then
        (readDigits hexDigit 16 rest none).map (fun n => sign * (n : Int))
      else
        (readDigits decDigit 10 body none).map (fun n => sign * (n : Int))
  | _ => (readDigits decDigit 10 body none).map (fun n => sign * (n : Int))

/-- `parseInt(alert.dataset.dismiss) || 5000` in `initAlerts`: the parsed
delay is replaced by 5000 when it is falsy (`NaN` or `0`). -/
def dismissDelay (v : String) : Int :=
  match jsParseInt v with
  | none => 5000
  | some n => if n = 0 then 5000 else n

/-- The instant (in milliseconds after `initAlerts` runs) at which the alert
element is removed: the dismiss delay for the outer `setTimeout`, plus the
fixed 300 ms fade of the inner `setTimeout`. -/
def alertRemovalTime (v : String) : Int :=
  dismissDelay v + 300

end MainJs

namespace ThemeToggle

/-- Fixture: a toggle control whose attributes currently reflect the light
theme (unpressed, inviting a switch to dark). -/
def exBtnOff : Btn :=
  { ariaPressed := some "false", title := some "Switch to Dark Mode",
    hasListener := true }

/-- Fixture: light theme active and persisted, three registered toggle
controls, storage available. -/
def exThreeBtns : State :=
  { dataTheme := some "light", buttons := [exBtnOff, exBtnOff, exBtnOff],
    store := some "light", storageOk := true, prefersDark := false }

/-- Fixture: a fresh page load — no `data-theme` attribute yet, no
persisted entry, storage available, ambient signal dark. -/
def exFreshDark : State :=
  { dataTheme := none, buttons := [], store := none,
    storageOk := true, prefersDark := true }

/-- Fixture: the document marker reads `dark` but the store has no entry. -/
def exMarkerDarkStoreEmpty : State :=
  { dataTheme := some "dark", buttons := [], store := none,
    storageOk := true, prefersDark := false }

/-- Fixture: storage writes throw; one registered toggle control whose
attributes reflect the light theme. -/
def exNoStorage : State :=
  { dataTheme := none, buttons := [exBtnOff], store := none,
    storageOk := false, prefersDark := false }

end ThemeToggle

open ThemeToggle MainJs

/-- C1: the claim states that on a fresh load with no persisted entry and
ambient signal dark, after the pre-pass and the DOM-ready `initTheme` the
marker and the store both read `dark`.  The code disagrees: the anti-flash
pre-pass does set the marker to `dark` via `checkSystemPreference`, but
`initTheme` resolves via `getSavedTheme`, which defaults the still-empty
store to `light`, so the load ends with marker `light` and store `light` —
the spec's intent (initialize runs `resolveInitialTheme`) is violated by
the code. -/
theorem C1_fresh_dark_load_ends_light :
    (loadPage exFreshDark).state.dataTheme = some "light" ∧
    (loadPage exFreshDark).state.store = some "light" :=
  ⟨rfl, rfl⟩

/-- C2 counterexample: with three toggle controls registered and the light
theme active, one `toggleTheme()` call switches the document to `dark` but
does not update every control: the second and third still carry the old
pressed-state and title, refuting the claim that all controls are
updated. -/
theorem C2_counterexample :
    (toggleTheme exThreeBtns).state.dataTheme = some "dark" ∧
    ¬ ∀ b ∈ (toggleTheme exThreeBtns).state.buttons,
        b.ariaPressed = some "true" ∧ b.title = some (btnTitle "dark") := by
  refine ⟨rfl, ?_⟩
  decide

/-- C2 amended: a single `toggleTheme` call (with storage available)
updates the pressed-state indicator and title of only the FIRST registered
toggle control in document order — `applyTheme` uses `querySelector`, not
`querySelectorAll` — and leaves every later control unchanged. -/
theorem C2_only_first_control_updated (s : State) (b : Btn) (rest : List Btn)
    (hok : s.storageOk = true) (hb : s.buttons = b :: rest) :
    (toggleTheme s).state.buttons =
      { b with
          ariaPressed :=
            some (boolAttr (nextTheme (jsOr s.dataTheme "light") = "dark")),
          title := some (btnTitle (nextTheme (jsOr s.dataTheme "light"))) }
        :: rest := by
  rcases s with ⟨dt, bs, st, ok, pd⟩
  simp only at hok hb
  subst hok hb
  simp [toggleTheme, applyTheme, updateFirstBtn]

/-- C2 witness: the amended theorem applied to the three-control fixture. -/
theorem C2_only_first_control_updated_witness :
    exThreeBtns.storageOk = true ∧
    exThreeBtns.buttons = exBtnOff :: [exBtnOff, exBtnOff] ∧
    (toggleTheme exThreeBtns).state.buttons =
      { exBtnOff with
          ariaPressed :=
            some (boolAttr (nextTheme (jsOr exThreeBtns.dataTheme "light") = "dark")),
          title :=
            some (btnTitle (nextTheme (jsOr exThreeBtns.dataTheme "light"))) }
        :: [exBtnOff, exBtnOff] :=
  ⟨rfl, rfl,
    C2_only_first_control_updated exThreeBtns exBtnOff [exBtnOff, exBtnOff]
      rfl rfl⟩

/-- C3: the claim states that when the persisted store throws on write,
`applyTheme` still updates every toggle control and no fault propagates.
The code disagrees: `localStorage.setItem` is not wrapped in any handler,
so the exception propagates out of `applyTheme` (`threw = true`), the
toggle control is left with its stale attributes (the update comes after
the write), and only the marker — set before the write — holds the new
theme.  The spec explicitly requires silent degradation, so this is a gap
in the code. -/
theorem C3_write_failure_throws_and_skips_controls :
    (applyTheme "dark" exNoStorage).threw = true ∧
    (applyTheme "dark" exNoStorage).state.dataTheme = some "dark" ∧
    (applyTheme "dark" exNoStorage).state.buttons = [exBtnOff] ∧
    (applyTheme "dark" exNoStorage).state.store = none :=
  ⟨rfl, rfl, rfl, rfl⟩

/-- C4: `checkSystemPreference` (the code's `resolveInitialTheme`) returns
the persisted entry whenever one exists (any valid theme value), regardless
of the ambient signal, and when no entry exists it returns `dark` exactly
when the ambient prefers-dark signal holds. -/
theorem C4_resolution_precedence (s : State) :
    (∀ e, s.store = some e → e = "light" ∨ e = "dark" →
      checkSystemPreference s = e) ∧
    (s.store = none →
      checkSystemPreference s = if s.prefersDark then "dark" else "light") := by
  constructor
  · intro e he hval
    rcases hval with h | h <;>
      subst h <;>
      simp [checkSystemPreference, strFalsy, getSavedTheme, jsOr, he]
  · intro h
    simp [checkSystemPreference, strFalsy, h]

/-- C4 witness: a store entry `dark` wins over an ambient light signal, and
an empty store with ambient dark resolves to `dark`. -/
theorem C4_resolution_precedence_witness :
    checkSystemPreference
      { dataTheme := none, buttons := [], store := some "dark",
        storageOk := true, prefersDark := false } = "dark" ∧
    checkSystemPreference exFreshDark = "dark" := by
  constructor
  · exact (C4_resolution_precedence _).1 "dark" rfl (Or.inr rfl)
  · have h := (C4_resolution_precedence exFreshDark).2 rfl
    simpa using h

/-- C5: with storage available, `applyTheme t` leaves the document marker
and the persisted entry both equal to `t`, for every theme
`t ∈ \x7blight, dark\x7d`. -/
theorem C5_applyTheme_sets_marker_and_store (s : State) (t : String)
    (_ht : t = "light" ∨ t = "dark") (hok : s.storageOk = true) :
    (applyTheme t s).state.dataTheme = some t ∧
    (applyTheme t s).state.store = some t := by
  rcases s with ⟨dt, bs, st, ok, pd⟩
  simp only at hok
  subst hok
  simp [applyTheme]

/-- C5 witness: the theorem applied at theme `dark` on the fresh-load
fixture. -/
theorem C5_applyTheme_sets_marker_and_store_witness :
    (("dark" : String) = "light" ∨ ("dark" : String) = "dark") ∧
    exFreshDark.storageOk = true ∧
    ((applyTheme "dark" exFreshDark).state.dataTheme = some "dark" ∧
      (applyTheme "dark" exFreshDark).state.store = some "dark") :=
  ⟨Or.inr rfl, rfl,
    C5_applyTheme_sets_marker_and_store exFreshDark "dark" (Or.inr rfl) rfl⟩

/-- C6: `applyTheme` is idempotent — applying the same theme twice from any
starting state produces exactly the result of applying it once (marker,
persisted entry, every control's attributes, and the thrown-or-not outcome
all coincide). -/
theorem C6_applyTheme_idempotent (s : State) (t : String)
    (_ht : t = "light" ∨ t = "dark") :
    applyTheme t (applyTheme t s).state = applyTheme t s := by
  rcases s with ⟨dt, bs, st, ok, pd⟩
  cases ok <;> cases bs <;> simp [applyTheme, updateFirstBtn]

/-- C6 witness: idempotence at theme `dark` on the three-control
fixture. -/
theorem C6_applyTheme_idempotent_witness :
    (("dark" : String) = "light" ∨ ("dark" : String) = "dark") ∧
    applyTheme "dark" (applyTheme "dark" exThreeBtns).state =
      applyTheme "dark" exThreeBtns :=
  ⟨Or.inr rfl, C6_applyTheme_idempotent exThreeBtns "dark" (Or.inr rfl)⟩

/-- C7 counterexample: from a state whose marker reads `dark` but whose
store has no entry, two `toggleTheme()` calls do NOT restore the original
persisted value: the store ends as `dark` where it started empty, refuting
the claim for arbitrary starting states. -/
theorem C7_counterexample :
    (toggleTheme (toggleTheme exMarkerDarkStoreEmpty).state).state.store ≠
      exMarkerDarkStoreEmpty.store := by
  decide

/-- C7 amended: from every starting state whose document marker is a valid
theme and whose persisted entry equals that marker value, two
`toggleTheme()` calls restore both the original marker and the original
persisted value. -/
theorem C7_toggle_involution (s : State) (t : String)
    (hm : s.dataTheme = some t) (hs : s.store = some t)
    (ht : t = "light" ∨ t = "dark") :
    (toggleTheme (toggleTheme s).state).state.dataTheme = s.dataTheme ∧
    (toggleTheme (toggleTheme s).state).state.store = s.store := by
  rcases s with ⟨dt, bs, st, ok, pd⟩
  simp only at hm hs
  subst hm hs
  rcases ht with h | h <;>
    subst h <;>
    cases ok <;>
    simp [toggleTheme, applyTheme, nextTheme, jsOr, updateFirstBtn]

/-- C7 witness: the amended involution on the three-control fixture (marker
`light`, store `light`). -/
theorem C7_toggle_involution_witness :
    exThreeBtns.dataTheme = some "light" ∧ exThreeBtns.store = some "light" ∧
    (("light" : String) = "light" ∨ ("light" : String) = "dark") ∧
    ((toggleTheme (toggleTheme exThreeBtns).state).state.dataTheme =
        exThreeBtns.dataTheme ∧
      (toggleTheme (toggleTheme exThreeBtns).state).state.store =
        exThreeBtns.store) :=
  ⟨rfl, rfl, Or.inl rfl,
    C7_toggle_involution exThreeBtns "light" rfl rfl (Or.inl rfl)⟩

/-- C8: the anti-flash pre-pass writes only the document marker — the
store entry, the toggle controls, and the storage flag are untouched, and
the marker receives exactly the value `checkSystemPreference` resolves
(`checkSystemPreference` itself is a pure read, embedded as a
string-valued function). -/
theorem C8_preflash_writes_only_marker (s : State) :
    (preFlash s).store = s.store ∧
    (preFlash s).buttons = s.buttons ∧
    (preFlash s).storageOk = s.storageOk ∧
    (preFlash s).dataTheme = some (checkSystemPreference s) := by
  simp [preFlash]

/-- C9: the claim states that both initialization phases use the same
resolution semantics.  The code disagrees: on an empty store with ambient
signal dark, phase 1 (the anti-flash IIFE) resolves `dark` via
`checkSystemPreference`, while phase 2 (`initTheme`, running after the
pre-pass, which never writes the store) resolves `light` via
`getSavedTheme` — two different resolution functions that disagree,
violating the spec's single-resolution requirement. -/
theorem C9_phases_use_different_resolution :
    checkSystemPreference exFreshDark = "dark" ∧
    getSavedTheme (preFlash exFreshDark) = "light" :=
  ⟨rfl, rfl⟩

/-- C10: whenever the dismiss-delay attribute parses to `0` or fails to
parse at all (`NaN`), the falsy result is replaced by the default, so the
alert fades after 5000 ms and is removed at 5300 ms. -/
theorem C10_falsy_delay_defaults (v : String)
    (h : jsParseInt v = some 0 ∨ jsParseInt v = none) :
    dismissDelay v = 5000 ∧ alertRemovalTime v = 5300 := by
  rcases h with h | h <;> simp [dismissDelay, alertRemovalTime, h]

/-- C10 witness: the attribute value `"0"` parses to `0` and yields the
default timings. -/
theorem C10_falsy_delay_defaults_witness :
    (jsParseInt "0" = some 0 ∨ jsParseInt "0" = none) ∧
    (dismissDelay "0" = 5000 ∧ alertRemovalTime "0" = 5300) :=
  ⟨Or.inl rfl, C10_falsy_delay_defaults "0" (Or.inl rfl)⟩
